import Mathlib

/-!
# Verification of the Python-WASM launcher session protocol

Shallow embedding of `src/common/launcher.ts` (`BaseLauncher`) and of the
extension-activation module (`preloadPython` and friends).

The launcher's `doRun` is an async method whose behaviour is determined by
the outcomes of the asynchronous operations it awaits.  We embed it as a
pure function from a launch call and an environment of outcomes (one
`Except` per awaited operation) to the pair of the promise result of
`doRun` itself and the ordered trace of observable events the session
produces (field assignments, requests sent on the message channel, driver
registrations, `signalReady`, invocations of the exit resolve/reject
callbacks, and invocations of `terminateConnection`).

The order of events in the trace follows the source line by line,
including the promise-reaction order of the final
`runRequest.then(resolve).catch(reject).finally(terminateConnection)`
chain: the `then`/`catch` handler that settles the exit promise runs
strictly before the `finally` handler that tears the connection down.
-/

namespace PyWasm

/-- The three run modes of the launcher (`'run' | 'debug' | 'repl'`). -/
inductive Mode where
  | run
  | debug
  | repl
  deriving DecidableEq, Repr

/-- The launcher state record `{ mode, pty, program }` (the pty handle is
opaque and carries no information relevant to the claims). -/
structure LauncherState where
  mode : Mode
  program : Option String
  deriving DecidableEq, Repr

/-- The configuration returned by `PythonInstallation.getConfig()`:
`{ repository, root }`.  The repository URI is modelled by the string
`repository.toString(true)` sent in the handshake. -/
structure Config where
  repository : String
  root : String
  deriving DecidableEq, Repr

/-- Requests of the message channel (`MessageRequests`).  `init` models the
`initialize` request; the other three are the mode-specific run requests. -/
inductive Request where
  | init (pythonRepository : String) (pythonRoot : String) (binary : List Nat)
  | executeFile (syncPort : Nat) (file : String)
  | debugFile (syncPort : Nat) (file : String) (uri : String) (terminator : String)
  | runRepl (syncPort : Nat)
  deriving DecidableEq, Repr

/-- Observable events of a launcher session, in program order. -/
inductive Event where
  /-- `this.state = { mode, pty, program }` (launcher.ts line 123). -/
  | setState (mode : Mode) (program : Option String)
  /-- `messageConnection.listen()` (line 126). -/
  | listen
  /-- `messageConnection.onNotification('pathMappings', ...)` (lines 127-129). -/
  | onPathMappingsRegistered
  /-- `messageConnection.sendRequest(name, params, transferList)`; the
  transfer list holds the sync-connection port handles passed along. -/
  | sendRequest (r : Request) (transferList : List Nat)
  /-- `new ApiService('Python WASM Execution', syncConnection, ...)` (line 138). -/
  | apiServiceCreated
  /-- `apiService.registerCharacterDeviceDriver(endpoint, isPrimary)` (lines 144-147). -/
  | registerCharacterDeviceDriver (isPrimary : Bool)
  /-- `apiService.signalReady()` (line 148). -/
  | signalReady
  /-- Invocation of `this.exitResolveCallback(rval)` (line 157): the exit
  promise returned by `onExit()` resolves with `code`. -/
  | resolveExit (code : Int)
  /-- Invocation of `this.exitRejectCallback(reason)` (line 158): the exit
  promise returned by `onExit()` rejects with `reason`. -/
  | rejectExit (reason : String)
  /-- An invocation of `this.terminateConnection()` (line 159 or 175). -/
  | terminateConnCall
  /-- `this.terminal.sendText(text, true)` (line 173). -/
  | sendText (text : String)
  deriving DecidableEq, Repr

/-- A call to one of the three public entry points, with the arguments the
overloaded `doRun` signatures guarantee for each mode:
`run(context, program, pty)`, `debug(context, program, pty, debugPorts,
terminator)`, `startRepl(context, pty)`. -/
inductive LaunchCall where
  | run (program : String)
  | debug (program : String) (debugUri : String) (terminator : String)
  | startRepl
  deriving DecidableEq, Repr

/-- The mode `doRun` receives for each public entry point. -/
def modeOf : LaunchCall → Mode
  | .run _ => Mode.run
  | .debug _ _ _ => Mode.debug
  | .startRepl => Mode.repl

/-- The optional `program` argument of `doRun` for each entry point. -/
def programOf : LaunchCall → Option String
  | .run p => some p
  | .debug p _ _ => some p
  | .startRepl => none

/-- The mode-specific run request of lines 150-154: `executeFile` for run,
`debugFile` for debug, `runRepl` for repl, each carrying the sync port. -/
def runReqOf : LaunchCall → Nat → Request
  | .run p, port => Request.executeFile port p
  | .debug p uri term, port => Request.debugFile port p uri term
  | .startRepl, port => Request.runRepl port

/-- Outcomes of the asynchronous operations a session awaits.  Each field
is the settled outcome of the corresponding promise.  `runResponse` is the
outcome of the mode-specific run request; a rejection caused by an external
`terminate()` closing the channel is an `error` outcome like any other. -/
structure Env where
  getConfig : Except String Config
  sharedWasmBytes : Except String (List Nat)
  createMessageConnection : Except String Unit
  initResponse : Except String Unit
  createSyncConnection : Except String Nat
  runResponse : Except String Int

/-- `Promise.all` over the three boot operations of line 124: succeeds with
the pair of payloads iff all three succeed, otherwise rejects (with the
leftmost failure's reason). -/
def promiseAll3 (a : Except String Config) (b : Except String (List Nat))
    (c : Except String Unit) : Except String (Config × List Nat) :=
  match a, b, c with
  | .ok x, .ok y, .ok _ => .ok (x, y)
  | .error e, _, _ => .error e
  | .ok _, .error e, _ => .error e
  | .ok _, .ok _, .error e => .error e

/-- Trace of a session that failed in the boot `Promise.all`: only the
state assignment of line 123 has happened. -/
def bootTrace (call : LaunchCall) : List Event :=
  [Event.setState (modeOf call) (programOf call)]

/-- Trace of a session up to and including the `initialize` handshake
request of lines 126-135. -/
def initSentTrace (call : LaunchCall) (cfg : Config) (bytes : List Nat) : List Event :=
  bootTrace call ++
    [Event.listen, Event.onPathMappingsRegistered,
     Event.sendRequest (Request.init cfg.repository cfg.root bytes) []]

/-- Events of lines 138-154: ApiService construction, driver registration
(the pty always primary, the debug driver additionally and non-primary in
debug mode), `signalReady`, and the single mode-specific run request with
the port in its transfer list. -/
def wireTrace (call : LaunchCall) (port : Nat) : List Event :=
  [Event.apiServiceCreated, Event.registerCharacterDeviceDriver true] ++
  (if modeOf call = Mode.debug then [Event.registerCharacterDeviceDriver false] else []) ++
  [Event.signalReady, Event.sendRequest (runReqOf call port) [port]]

/-- The settlement events of the `then`/`catch` handlers of lines 156-158:
exactly one of the exit callbacks is invoked, by the outcome. -/
def settleEvents : Except String Int → List Event
  | .ok code => [Event.resolveExit code]
  | .error e => [Event.rejectExit e]

/-- `BaseLauncher.doRun` (launcher.ts lines 122-160).  Returns the outcome
of the promise `doRun` itself returns (which `run`/`debug`/`startRepl`
hand to their caller) and the full ordered event trace of the session,
including the later promise reactions of lines 156-159.  Any awaited
operation that fails makes the `doRun` promise reject with that reason and
cuts the trace there; the run request itself is not awaited, so `doRun`
resolves once it is dispatched, and the `then`/`catch` settlement of the
exit promise precedes the `finally` invocation of `terminateConnection`. -/
def doRun (call : LaunchCall) (env : Env) : Except String Unit × List Event :=
  match promiseAll3 env.getConfig env.sharedWasmBytes env.createMessageConnection with
  | .error e => (.error e, bootTrace call)
  | .ok (cfg, bytes) =>
    match env.initResponse with
    | .error e => (.error e, initSentTrace call cfg bytes)
    | .ok _ =>
      match env.createSyncConnection with
      | .error e => (.error e, initSentTrace call cfg bytes)
      | .ok port =>
        (.ok (), initSentTrace call cfg bytes ++ wireTrace call port ++
          settleEvents env.runResponse ++ [Event.terminateConnCall])

/-- The event trace of a session. -/
def doRunTrace (call : LaunchCall) (env : Env) : List Event :=
  (doRun call env).2

/-- The outcome of the promise returned by `run`/`debug`/`startRepl`. -/
def doRunResult (call : LaunchCall) (env : Env) : Except String Unit :=
  (doRun call env).1

/-- `BaseLauncher.terminate` (lines 171-176) as an event producer: writes
the interrupt notice iff the `terminal` field is set, then invokes
`terminateConnection`. -/
def terminateEvents (terminal : Option Unit) : List Event :=
  (match terminal with
   | some _ => [Event.sendText "Execution terminated"]
   | none => []) ++ [Event.terminateConnCall]

/-- An event that settles the exit promise (invocation of either exit
callback created in the constructor, lines 92-99). -/
def isSettle : Event → Bool
  | .resolveExit _ => true
  | .rejectExit _ => true
  | _ => false

/-- A request sent on the message channel. -/
def isReq : Event → Bool
  | .sendRequest _ _ => true
  | _ => false

/-- A mode-specific run request (`executeFile`, `debugFile` or `runRepl`). -/
def isRunReq : Event → Bool
  | .sendRequest (Request.executeFile ..) _ => true
  | .sendRequest (Request.debugFile ..) _ => true
  | .sendRequest (Request.runRepl ..) _ => true
  | _ => false

/-- The `initialize` handshake request. -/
def Request.isInit : Request → Bool
  | .init .. => true
  | _ => false

/-- A character-device-driver registration. -/
def isRegister : Event → Bool
  | .registerCharacterDeviceDriver _ => true
  | _ => false

/-- The `signalReady` event. -/
def isSignal : Event → Bool
  | .signalReady => true
  | _ => false

/-- An invocation of `terminateConnection`. -/
def isTermCall : Event → Bool
  | .terminateConnCall => true
  | _ => false

/-- An event whose transfer list passes the given port handle. -/
def transfersPort (p : Nat) : Event → Bool
  | .sendRequest _ ts => ts.contains p
  | _ => false

/-- How many times the exit promise's callbacks are invoked in a trace. -/
def settleCount (tr : List Event) : Nat :=
  tr.countP isSettle

/-- The requests sent on the message channel, in order. -/
def requests (tr : List Event) : List Request :=
  tr.filterMap fun e =>
    match e with
    | .sendRequest r _ => some r
    | _ => none

/-- `true` iff an `Except` outcome is a success. -/
def exOk {α : Type} : Except String α → Bool
  | .ok _ => true
  | .error _ => false

/-- All three boot operations of line 124 succeeded. -/
def Env.bootOk (env : Env) : Bool :=
  exOk env.getConfig && exOk env.sharedWasmBytes && exOk env.createMessageConnection

/-- The session reaches the run-request dispatch of lines 150-154: boot,
the `initialize` handshake and the sync-connection creation all succeed. -/
def Env.reachesRun (env : Env) : Bool :=
  env.bootOk && exOk env.initResponse && exOk env.createSyncConnection

/-! ## Instance fields of `BaseLauncher` and reachable field states

The only instance-field assignments in launcher.ts are the constructor
initialisations (lines 92-99, which leave `terminal` undefined) and
`this.state = { mode, pty, program }` at line 123 in `doRun`;
`terminate` assigns nothing. -/

/-- The mutable instance fields of `BaseLauncher` relevant to the claims:
`terminal` (line 86, `Terminal | undefined`) and `state` (line 88). -/
structure Fields where
  terminal : Option Unit
  state : Option LauncherState
  deriving DecidableEq, Repr

/-- The field values after the constructor (lines 92-99): `terminal` and
`state` are left undefined. -/
def initialFields : Fields :=
  ⟨none, none⟩

/-- The field assignments `doRun` performs (line 123 only). -/
def doRunFields (f : Fields) (call : LaunchCall) : Fields :=
  ⟨f.terminal, some ⟨modeOf call, programOf call⟩⟩

/-- The field assignments `terminate` performs (none). -/
def terminateFields (f : Fields) : Fields :=
  f

/-- Field states reachable by any sequence of operations on a
`BaseLauncher` instance. -/
inductive ReachableFields : Fields → Prop where
  | constructed : ReachableFields initialFields
  | afterDoRun (f : Fields) (call : LaunchCall) :
      ReachableFields f → ReachableFields (doRunFields f call)
  | afterTerminate (f : Fields) :
      ReachableFields f → ReachableFields (terminateFields f)

/-! ## Channel-close side effects

`terminateConnection` is abstract in `BaseLauncher` (line 182) and
implemented by the concrete launcher subclasses, which are not part of the
embedded sources.  Per the spec it closes the message channel, and
"channel close is idempotent and safe to call multiple times". -/

/-- Modelled from the spec: the implementations of the abstract
`terminateConnection` (concrete launcher subclasses, outside the embedded
sources) close the message channel, and channel close is idempotent.
`channelCloseCount closed tr` replays a trace over the channel-closed flag
and counts the actual close side effects: each `terminateConnection`
invocation closes the channel iff it is still open. -/
def channelCloseCount : Bool → List Event → Nat
  | _, [] => 0
  | closed, e :: rest =>
    if isTermCall e then (if closed then 0 else 1) + channelCloseCount true rest
    else channelCloseCount closed rest

/-- Whether the channel is closed after replaying a trace. -/
def closedAfter (b : Bool) (tr : List Event) : Bool :=
  b || tr.any isTermCall

/-! ## The extension-activation module

Embedding of `preloadPython` and `getRemoteHubExtension` from the
activation source file. -/

/-- The RemoteHub API surface `preloadPython` uses: the optional
`loadWorkspaceContents` member, and the outcome of calling it. -/
structure RemoteHubApi where
  hasLoadWorkspaceContents : Bool
  loadResult : Except String Bool
  deriving Repr

/-- A RemoteHub extension handle: the outcome of `await remoteHub.activate()`. -/
structure RemoteHubExt where
  activateResult : Except String RemoteHubApi
  deriving Repr

/-- The installed-extensions environment `getRemoteHubExtension` queries. -/
structure ExtensionEnv where
  msVscodeRemoteRepositories : Option RemoteHubExt
  gitHubRemoteHub : Option RemoteHubExt
  gitHubRemoteHubInsiders : Option RemoteHubExt
  deriving Repr

/-- `getRemoteHubExtension`: the `??`-chain over the three extension ids. -/
def getRemoteHubExtension (env : ExtensionEnv) : Option RemoteHubExt :=
  (env.msVscodeRemoteRepositories <|> env.gitHubRemoteHub) <|> env.gitHubRemoteHubInsiders

/-- Observable events of the preload. -/
inductive PEvent where
  /-- `await remoteHubApi.loadWorkspaceContents(uri)`. -/
  | loadWorkspaceContents (uri : String)
  /-- The fire-and-forget `void workspace.fs.readFile(...)`. -/
  | readFile (uri : String)
  /-- `console.log(error)` in the catch block. -/
  | consoleLog (message : String)
  deriving DecidableEq, Repr

/-- The hard-coded interpreter-image workspace URI. -/
def pythonUri : String :=
  "vscode-vfs://github/dbaeumer/python-3.11.0rc"

/-- The body of `preloadPython`'s `try` block: outcome the block would
propagate, plus the events it performs up to that point.  The `readFile`
call is `void`ed, so its own outcome cannot make the block throw. -/
def preloadBody (env : ExtensionEnv) : Except String Unit × List PEvent :=
  match getRemoteHubExtension env with
  | none => (.ok (), [])
  | some ext =>
    match ext.activateResult with
    | .error e => (.error e, [])
    | .ok api =>
      if api.hasLoadWorkspaceContents then
        match api.loadResult with
        | .error e => (.error e, [PEvent.loadWorkspaceContents pythonUri])
        | .ok _ =>
          (.ok (), [PEvent.loadWorkspaceContents pythonUri,
            PEvent.readFile (pythonUri ++ "/python.wasm")])
      else (.ok (), [])

/-- `preloadPython`: the whole body is wrapped in `try { ... } catch
(error) { console.log(error) }`, so the returned promise always resolves
and any error of the body is logged. -/
def preloadPython (env : ExtensionEnv) : Except String Unit × List PEvent :=
  match preloadBody env with
  | (.ok _, evs) => (.ok (), evs)
  | (.error e, evs) => (.ok (), evs ++ [PEvent.consoleLog e])

/-! ## Concrete example environments -/

/-- A small concrete configuration. -/
def cfgEx : Config :=
  ⟨"repo", "root"⟩

/-- An environment in which every operation succeeds and the run request
resolves with exit code 0. -/
def envOk : Env :=
  ⟨.ok cfgEx, .ok [1], .ok (), .ok (), .ok 7, .ok 0⟩

/-- An environment in which the run request rejects. -/
def envRunFail : Env :=
  ⟨.ok cfgEx, .ok [1], .ok (), .ok (), .ok 7, .error "worker crashed"⟩

/-- An environment in which the interpreter-image fetch of the boot
`Promise.all` fails. -/
def envBootFail : Env :=
  ⟨.error "image fetch failed", .ok [1], .ok (), .ok (), .ok 7, .ok 0⟩

/-- An extension environment whose RemoteHub activation fails. -/
def envPreloadFail : ExtensionEnv :=
  ⟨some ⟨.error "activation failed"⟩, none, none⟩

/-- The number of character-device drivers a mode requires: the pty
always, plus the debug driver in debug mode (lines 144-147). -/
def requiredDrivers : Mode → Nat
  | Mode.debug => 2
  | _ => 1

/-! ## Helper lemmas -/

theorem exOk_elim {α : Type} {x : Except String α} (h : exOk x = true) :
    ∃ a, x = Except.ok a := by
  cases x with
  | ok a => exact ⟨a, rfl⟩
  | error e => simp [exOk] at h

theorem reachesRun_elim (env : Env) (h : env.reachesRun = true) :
    ∃ cfg bytes port, env.getConfig = Except.ok cfg
      ∧ env.sharedWasmBytes = Except.ok bytes
      ∧ env.createMessageConnection = Except.ok ()
      ∧ env.initResponse = Except.ok ()
      ∧ env.createSyncConnection = Except.ok port := by
  rcases env with ⟨gc, sw, cc, ir, cs, rr⟩
  cases gc with
  | error e => simp [Env.reachesRun, Env.bootOk, exOk] at h
  | ok cfg =>
  cases sw with
  | error e => simp [Env.reachesRun, Env.bootOk, exOk] at h
  | ok bytes =>
  cases cc with
  | error e => simp [Env.reachesRun, Env.bootOk, exOk] at h
  | ok u =>
  cases ir with
  | error e => simp [Env.reachesRun, Env.bootOk, exOk] at h
  | ok v =>
  cases cs with
  | error e => simp [Env.reachesRun, Env.bootOk, exOk] at h
  | ok port =>
  cases u
  cases v
  exact ⟨cfg, bytes, port, rfl, rfl, rfl, rfl, rfl⟩

theorem doRunTrace_reachesRun (call : LaunchCall) (env : Env)
    (h : env.reachesRun = true) :
    ∃ cfg bytes port,
      doRunTrace call env = initSentTrace call cfg bytes ++ wireTrace call port ++
        settleEvents env.runResponse ++ [Event.terminateConnCall] := by
  obtain ⟨cfg, bytes, port, h1, h2, h3, h4, h5⟩ := reachesRun_elim env h
  refine ⟨cfg, bytes, port, ?_⟩
  simp [doRunTrace, doRun, promiseAll3, h1, h2, h3, h4, h5]

theorem doRunTrace_shape (call : LaunchCall) (env : Env) :
    doRunTrace call env = bootTrace call
    ∨ (∃ cfg bytes, doRunTrace call env = initSentTrace call cfg bytes)
    ∨ (∃ cfg bytes port,
        doRunTrace call env = initSentTrace call cfg bytes ++ wireTrace call port ++
          settleEvents env.runResponse ++ [Event.terminateConnCall]) := by
  unfold doRunTrace doRun
  rcases env with ⟨gc, sw, cc, ir, cs, rr⟩
  cases gc with
  | error e => left; rfl
  | ok cfg =>
    cases sw with
    | error e => left; rfl
    | ok bytes =>
      cases cc with
      | error e => left; rfl
      | ok u =>
        cases ir with
        | error e => right; left; exact ⟨cfg, bytes, rfl⟩
        | ok v =>
          cases cs with
          | error e => right; left; exact ⟨cfg, bytes, rfl⟩
          | ok port => right; right; exact ⟨cfg, bytes, port, rfl⟩

theorem settleCount_append (a b : List Event) :
    settleCount (a ++ b) = settleCount a + settleCount b := by
  simp [settleCount, List.countP_append]

theorem settleCount_bootTrace (call : LaunchCall) :
    settleCount (bootTrace call) = 0 := by
  simp [settleCount, bootTrace, isSettle]

theorem settleCount_initSentTrace (call : LaunchCall) (cfg : Config) (bytes : List Nat) :
    settleCount (initSentTrace call cfg bytes) = 0 := by
  simp [settleCount, initSentTrace, bootTrace, isSettle]

theorem settleCount_wireTrace (call : LaunchCall) (port : Nat) :
    settleCount (wireTrace call port) = 0 := by
  cases call <;> simp [settleCount, wireTrace, isSettle, modeOf, runReqOf]

theorem settleCount_settleEvents (r : Except String Int) :
    settleCount (settleEvents r) = 1 := by
  cases r <;> simp [settleCount, settleEvents, isSettle]

theorem settleCount_termCall :
    settleCount [Event.terminateConnCall] = 0 := by
  simp [settleCount, isSettle]

theorem requests_append (a b : List Event) :
    requests (a ++ b) = requests a ++ requests b := by
  simp [requests]

theorem requests_bootTrace (call : LaunchCall) :
    requests (bootTrace call) = [] := by
  simp [requests, bootTrace]

theorem requests_initSentTrace (call : LaunchCall) (cfg : Config) (bytes : List Nat) :
    requests (initSentTrace call cfg bytes)
      = [Request.init cfg.repository cfg.root bytes] := by
  simp [requests, initSentTrace, bootTrace]

theorem requests_wireTrace (call : LaunchCall) (port : Nat) :
    requests (wireTrace call port) = [runReqOf call port] := by
  cases call <;> simp [requests, wireTrace, modeOf, runReqOf]

theorem requests_settleEvents (r : Except String Int) :
    requests (settleEvents r) = [] := by
  cases r <;> simp [requests, settleEvents]

theorem requests_termCall :
    requests [Event.terminateConnCall] = [] := by
  simp [requests]

theorem runReqOf_not_isInit (call : LaunchCall) (port : Nat) :
    (runReqOf call port).isInit = false := by
  cases call <;> simp [runReqOf, Request.isInit]

theorem termCallCount_initSentTrace (call : LaunchCall) (cfg : Config) (bytes : List Nat) :
    (initSentTrace call cfg bytes).countP isTermCall = 0 := by
  simp [initSentTrace, bootTrace, isTermCall]

theorem termCallCount_wireTrace (call : LaunchCall) (port : Nat) :
    (wireTrace call port).countP isTermCall = 0 := by
  cases call <;> simp [wireTrace, isTermCall, modeOf, runReqOf]

theorem channelCloseCount_append (b : Bool) (xs ys : List Event) :
    channelCloseCount b (xs ++ ys)
      = channelCloseCount b xs + channelCloseCount (closedAfter b xs) ys := by
  induction xs generalizing b with
  | nil => simp [channelCloseCount, closedAfter]
  | cons e xs ih =>
    simp only [List.cons_append, channelCloseCount, List.append_eq]
    simp only [ih]
    by_cases he : isTermCall e = true
    · simp [he, closedAfter, List.any_cons, Bool.or_true]
      omega
    · simp only [Bool.not_eq_true] at he
      simp [he, closedAfter, List.any_cons]

theorem channelCloseCount_terminateEvents_closed (t : Option Unit) :
    channelCloseCount true (terminateEvents t) = 0 := by
  cases t <;> simp [terminateEvents, channelCloseCount, isTermCall]

theorem closedAfter_terminateEvents (b : Bool) (tr : List Event) (t : Option Unit) :
    closedAfter b (tr ++ terminateEvents t) = true := by
  cases t <;> simp [closedAfter, terminateEvents, List.any_append, isTermCall]

theorem settle_implies_closed (call : LaunchCall) (env : Env)
    (h : 1 ≤ settleCount (doRunTrace call env)) :
    closedAfter false (doRunTrace call env) = true := by
  rcases doRunTrace_shape call env with htr | ⟨cfg, bytes, htr⟩ | ⟨cfg, bytes, port, htr⟩
  · rw [htr, settleCount_bootTrace] at h
    omega
  · rw [htr, settleCount_initSentTrace] at h
    omega
  · rw [htr]
    simp [closedAfter, List.any_append, isTermCall]

/-! ## Claims -/

/-- C1: for every session in any of the three modes, whether it ends by
worker success, worker failure, or a rejection induced by an external
`terminate()`, the exit promise returned by `onExit()` settles exactly
once: in a session whose run request is dispatched and settles, exactly
one of the exit resolve/reject callbacks is invoked; over every possible
session trace at most one is invoked in total; and `terminate()` itself
never invokes either callback. -/
theorem exit_settles_exactly_once (call : LaunchCall) (env : Env) (t : Option Unit)
    (h : env.reachesRun = true) :
    settleCount (doRunTrace call env) = 1
    ∧ (∀ env2 : Env, settleCount (doRunTrace call env2) ≤ 1)
    ∧ settleCount (terminateEvents t) = 0 := by
  refine ⟨?_, ?_, ?_⟩
  · obtain ⟨cfg, bytes, port, htr⟩ := doRunTrace_reachesRun call env h
    rw [htr, settleCount_append, settleCount_append, settleCount_append,
      settleCount_initSentTrace, settleCount_wireTrace, settleCount_settleEvents,
      settleCount_termCall]
  · intro env2
    rcases doRunTrace_shape call env2 with htr | ⟨cfg, bytes, htr⟩ | ⟨cfg, bytes, port, htr⟩
    · rw [htr, settleCount_bootTrace]
      omega
    · rw [htr, settleCount_initSentTrace]
      omega
    · rw [htr, settleCount_append, settleCount_append, settleCount_append,
        settleCount_initSentTrace, settleCount_wireTrace, settleCount_settleEvents,
        settleCount_termCall]
  · cases t <;> simp [terminateEvents, settleCount, isSettle]

/-- Witness for C1 at a concrete successful run session. -/
theorem exit_settles_exactly_once_witness :
    settleCount (doRunTrace (LaunchCall.run "app.py") envOk) = 1
    ∧ (∀ env2 : Env, settleCount (doRunTrace (LaunchCall.run "app.py") env2) ≤ 1)
    ∧ settleCount (terminateEvents none) = 0 :=
  exit_settles_exactly_once (LaunchCall.run "app.py") envOk none (by decide)

/-- C4: in every session and mode, the `initialize` request is the first
request on the message channel: if any request is sent at all, the head of
the request sequence is `initialize`, no later request is an `initialize`,
and a nonempty request sequence implies all three boot operations
(config/root resolution, shared-binary fetch, channel creation) completed
successfully. -/
theorem init_request_first (call : LaunchCall) (env : Env) :
    (∀ r, (requests (doRunTrace call env)).head? = some r → r.isInit = true)
    ∧ (∀ r, r ∈ (requests (doRunTrace call env)).tail → r.isInit = false)
    ∧ (requests (doRunTrace call env) ≠ [] → env.bootOk = true) := by
  refine ⟨?_, ?_, ?_⟩
  · intro r hr
    rcases doRunTrace_shape call env with htr | ⟨cfg, bytes, htr⟩ | ⟨cfg, bytes, port, htr⟩
    · rw [htr, requests_bootTrace] at hr
      simp at hr
    · rw [htr, requests_initSentTrace] at hr
      simp at hr
      simp [← hr, Request.isInit]
    · rw [htr, requests_append, requests_append, requests_append,
        requests_initSentTrace, requests_wireTrace, requests_settleEvents,
        requests_termCall] at hr
      simp at hr
      simp [← hr, Request.isInit]
  · intro r hr
    rcases doRunTrace_shape call env with htr | ⟨cfg, bytes, htr⟩ | ⟨cfg, bytes, port, htr⟩
    · rw [htr, requests_bootTrace] at hr
      simp at hr
    · rw [htr, requests_initSentTrace] at hr
      simp at hr
    · rw [htr, requests_append, requests_append, requests_append,
        requests_initSentTrace, requests_wireTrace, requests_settleEvents,
        requests_termCall] at hr
      simp at hr
      rw [hr]
      exact runReqOf_not_isInit call port
  · intro hne
    rcases env with ⟨gc, sw, cc, ir, cs, rr⟩
    cases gc with
    | error e => simp [doRunTrace, doRun, promiseAll3, requests_bootTrace] at hne
    | ok cfg =>
    cases sw with
    | error e => simp [doRunTrace, doRun, promiseAll3, requests_bootTrace] at hne
    | ok bytes =>
    cases cc with
    | error e => simp [doRunTrace, doRun, promiseAll3, requests_bootTrace] at hne
    | ok u =>
    simp [Env.bootOk, exOk]

/-- Witness for C4 at a concrete repl session: the head request is the
`initialize` handshake and the run request in the tail is not. -/
theorem init_request_first_witness :
    Request.isInit (Request.init "repo" "root" [1]) = true
    ∧ Request.isInit (Request.runRepl 7) = false :=
  ⟨(init_request_first LaunchCall.startRepl envOk).1 _ (by decide),
   (init_request_first LaunchCall.startRepl envOk).2.1 _ (by decide)⟩

/-- C2, counterexample to the claim as stated: at a concrete repl session
whose image fetch fails during boot, neither exit callback is ever invoked
(`settleCount = 0`), so the completion promise `onExit()` never settles —
in particular it does not reject with a `BootError` (no such class exists
in the code); the rejection surfaces on the promise returned by
`startRepl` instead. -/
theorem boot_failure_counterexample :
    settleCount (doRunTrace LaunchCall.startRepl envBootFail) = 0
    ∧ doRunResult LaunchCall.startRepl envBootFail
        = Except.error "image fetch failed" :=
  ⟨by decide, rfl⟩

/-- C2, amended: if the boot `Promise.all` (config resolution, shared
binary fetch, channel creation) fails, the session never reaches the
running state — no request (in particular no `initialize`) is ever sent
and `signalReady` is never invoked — and the failure surfaces as the
rejection of the promise returned by `run`/`debug`/`startRepl` with the
fetch error itself, while the `onExit()` promise never settles. -/
theorem boot_failure_aborts (call : LaunchCall) (env : Env) (e : String)
    (h : promiseAll3 env.getConfig env.sharedWasmBytes env.createMessageConnection
        = Except.error e) :
    doRunResult call env = Except.error e
    ∧ (doRunTrace call env).countP isReq = 0
    ∧ (doRunTrace call env).countP isSignal = 0
    ∧ settleCount (doRunTrace call env) = 0 := by
  unfold doRunResult doRunTrace doRun
  rw [h]
  simp [bootTrace, isReq, isSignal, settleCount, isSettle]

/-- Witness for the amended C2 at the concrete failing-boot session. -/
theorem boot_failure_aborts_witness :
    doRunResult LaunchCall.startRepl envBootFail = Except.error "image fetch failed"
    ∧ (doRunTrace LaunchCall.startRepl envBootFail).countP isReq = 0
    ∧ (doRunTrace LaunchCall.startRepl envBootFail).countP isSignal = 0
    ∧ settleCount (doRunTrace LaunchCall.startRepl envBootFail) = 0 :=
  boot_failure_aborts LaunchCall.startRepl envBootFail "image fetch failed" rfl

/-- C3, counterexample to the claim as stated: at a concrete successful
run session, the unique invocation of `terminateConnection` occurs
strictly after the exit promise is settled — the `then`/`catch` handler
that invokes the exit callback runs before the `finally` handler that
tears the connection down, so teardown is not invoked before completion
is surfaced. -/
theorem teardown_before_completion_counterexample :
    (doRunTrace (LaunchCall.run "app.py") envOk).findIdx isSettle
      < (doRunTrace (LaunchCall.run "app.py") envOk).findIdx isTermCall
    ∧ (doRunTrace (LaunchCall.run "app.py") envOk).countP isTermCall = 1
    ∧ settleCount (doRunTrace (LaunchCall.run "app.py") envOk) = 1 := by
  decide

/-- C3, amended: when the mode-specific run request settles (with success
or failure), the completion is surfaced first — the exit promise is
resolved or rejected by the `then`/`catch` handler — and channel teardown
(`terminateConnection`) is then invoked, exactly once, immediately
afterwards in the `finally` handler, regardless of the run outcome. -/
theorem teardown_follows_completion (call : LaunchCall) (env : Env)
    (h : env.reachesRun = true) :
    ∃ pre settle, doRunTrace call env = pre ++ [settle, Event.terminateConnCall]
      ∧ isSettle settle = true
      ∧ pre.countP isTermCall = 0
      ∧ pre.countP isSettle = 0 := by
  obtain ⟨cfg, bytes, port, htr⟩ := doRunTrace_reachesRun call env h
  cases hrr : env.runResponse with
  | ok code =>
    refine ⟨initSentTrace call cfg bytes ++ wireTrace call port, Event.resolveExit code,
      ?_, rfl, ?_, ?_⟩
    · rw [htr, hrr]
      simp [settleEvents, List.append_assoc]
    · rw [List.countP_append, termCallCount_initSentTrace, termCallCount_wireTrace]
    · have h1 := settleCount_initSentTrace call cfg bytes
      have h2 := settleCount_wireTrace call port
      simp only [settleCount] at h1 h2
      rw [List.countP_append, h1, h2]
  | error reason =>
    refine ⟨initSentTrace call cfg bytes ++ wireTrace call port, Event.rejectExit reason,
      ?_, rfl, ?_, ?_⟩
    · rw [htr, hrr]
      simp [settleEvents, List.append_assoc]
    · rw [List.countP_append, termCallCount_initSentTrace, termCallCount_wireTrace]
    · have h1 := settleCount_initSentTrace call cfg bytes
      have h2 := settleCount_wireTrace call port
      simp only [settleCount] at h1 h2
      rw [List.countP_append, h1, h2]

/-- Witness for the amended C3 at a concrete failing run session. -/
theorem teardown_follows_completion_witness :
    ∃ pre settle,
      doRunTrace (LaunchCall.run "app.py") envRunFail
        = pre ++ [settle, Event.terminateConnCall]
      ∧ isSettle settle = true
      ∧ pre.countP isTermCall = 0
      ∧ pre.countP isSettle = 0 :=
  teardown_follows_completion (LaunchCall.run "app.py") envRunFail (by decide)

/-- C5: per session, at most one mode-specific run request is ever sent;
in a session that reaches the dispatch point, exactly one is sent — the
one determined by the mode (`executeFile` for run, `debugFile` for debug,
`runRepl` for repl, via `runReqOf`) — and the sync-connection port handle
appears in the transfer list of exactly that one request and of no other
event of the session. -/
theorem single_run_request_consumes_port (call : LaunchCall) (env : Env)
    (h : env.reachesRun = true) :
    (∀ env2 : Env, (doRunTrace call env2).countP isRunReq ≤ 1)
    ∧ (∀ port, env.createSyncConnection = Except.ok port →
        (doRunTrace call env).filter isRunReq
            = [Event.sendRequest (runReqOf call port) [port]]
        ∧ (doRunTrace call env).countP (transfersPort port) = 1) := by
  constructor
  · intro env2
    rcases doRunTrace_shape call env2 with htr | ⟨cfg, bytes, htr⟩ | ⟨cfg, bytes, port, htr⟩
    · rw [htr]
      simp [bootTrace, isRunReq]
    · rw [htr]
      simp [initSentTrace, bootTrace, isRunReq]
    · rw [htr]
      cases hrr : env2.runResponse <;> cases call <;>
        simp [initSentTrace, bootTrace, wireTrace, settleEvents, isRunReq,
          modeOf, programOf, runReqOf, List.countP_append]
  · intro port hp
    obtain ⟨cfg, bytes, port2, h1, h2, h3, h4, h5⟩ := reachesRun_elim env h
    rw [hp] at h5
    injection h5 with h5
    subst h5
    have htr : doRunTrace call env = initSentTrace call cfg bytes ++ wireTrace call port ++
        settleEvents env.runResponse ++ [Event.terminateConnCall] := by
      simp [doRunTrace, doRun, promiseAll3, h1, h2, h3, h4, hp]
    rw [htr]
    cases hrr : env.runResponse <;> cases call <;>
      simp [initSentTrace, bootTrace, wireTrace, settleEvents, isRunReq, transfersPort,
        modeOf, programOf, runReqOf, List.countP_append]

/-- Witness for C5 at a concrete debug session. -/
theorem single_run_request_consumes_port_witness :
    (∀ env2 : Env,
      (doRunTrace (LaunchCall.debug "app.py" "uri" "(Pdb)") env2).countP isRunReq ≤ 1)
    ∧ (doRunTrace (LaunchCall.debug "app.py" "uri" "(Pdb)") envOk).filter isRunReq
        = [Event.sendRequest (runReqOf (LaunchCall.debug "app.py" "uri" "(Pdb)") 7) [7]]
    ∧ (doRunTrace (LaunchCall.debug "app.py" "uri" "(Pdb)") envOk).countP
        (transfersPort 7) = 1 :=
  ⟨(single_run_request_consumes_port (LaunchCall.debug "app.py" "uri" "(Pdb)") envOk
      (by decide)).1,
   (single_run_request_consumes_port (LaunchCall.debug "app.py" "uri" "(Pdb)") envOk
      (by decide)).2 7 rfl⟩

/-- C6: `signalReady` is invoked at most once over every session trace and
exactly once in a session that reaches the dispatch point; every
character-device-driver registration precedes it, with exactly the
required number of drivers (pty always; the debug driver additionally in
debug mode) registered before it and none after; and the mode-specific
run request is issued only after it. -/
theorem signalReady_once_after_registration (call : LaunchCall) (env : Env)
    (h : env.reachesRun = true) :
    (∀ env2 : Env, (doRunTrace call env2).countP isSignal ≤ 1)
    ∧ (doRunTrace call env).countP isSignal = 1
    ∧ ((doRunTrace call env).takeWhile (fun e => !isSignal e)).countP isRegister
        = requiredDrivers (modeOf call)
    ∧ (((doRunTrace call env).dropWhile (fun e => !isSignal e)).countP isRegister = 0)
    ∧ ((doRunTrace call env).takeWhile (fun e => !isSignal e)).countP isRunReq = 0
    ∧ (doRunTrace call env).countP isRunReq = 1 := by
  obtain ⟨cfg, bytes, port, htr⟩ := doRunTrace_reachesRun call env h
  refine ⟨?_, ?_⟩
  · intro env2
    rcases doRunTrace_shape call env2 with htr2 | ⟨cfg2, bytes2, htr2⟩ |
        ⟨cfg2, bytes2, port2, htr2⟩
    · rw [htr2]
      simp [bootTrace, isSignal]
    · rw [htr2]
      simp [initSentTrace, bootTrace, isSignal]
    · rw [htr2]
      cases hrr : env2.runResponse <;> cases call <;>
        simp [initSentTrace, bootTrace, wireTrace, settleEvents, isSignal,
          modeOf, programOf, runReqOf, List.countP_append]
  · rw [htr]
    cases hrr : env.runResponse <;> cases call <;>
      simp [initSentTrace, bootTrace, wireTrace, settleEvents, isSignal, isRegister,
        isRunReq, requiredDrivers, modeOf, programOf, runReqOf, List.countP_append,
        List.takeWhile, List.dropWhile]

/-- Witness for C6 at a concrete debug session. -/
theorem signalReady_once_after_registration_witness :
    (∀ env2 : Env,
      (doRunTrace (LaunchCall.debug "a.py" "u" "t") env2).countP isSignal ≤ 1)
    ∧ (doRunTrace (LaunchCall.debug "a.py" "u" "t") envOk).countP isSignal = 1
    ∧ ((doRunTrace (LaunchCall.debug "a.py" "u" "t") envOk).takeWhile
        (fun e => !isSignal e)).countP isRegister
        = requiredDrivers (modeOf (LaunchCall.debug "a.py" "u" "t"))
    ∧ (((doRunTrace (LaunchCall.debug "a.py" "u" "t") envOk).dropWhile
        (fun e => !isSignal e)).countP isRegister = 0)
    ∧ ((doRunTrace (LaunchCall.debug "a.py" "u" "t") envOk).takeWhile
        (fun e => !isSignal e)).countP isRunReq = 0
    ∧ (doRunTrace (LaunchCall.debug "a.py" "u" "t") envOk).countP isRunReq = 1 :=
  signalReady_once_after_registration (LaunchCall.debug "a.py" "u" "t") envOk (by decide)

/-- C7: a session that reaches the dispatch point registers exactly the
drivers its mode requires: in debug mode the pty as primary and then the
debug driver as non-primary, in run and repl mode only the pty as
primary. -/
theorem debug_registers_two_drivers (call : LaunchCall) (env : Env)
    (h : env.reachesRun = true) :
    (doRunTrace call env).filter isRegister
      = if modeOf call = Mode.debug
        then [Event.registerCharacterDeviceDriver true,
          Event.registerCharacterDeviceDriver false]
        else [Event.registerCharacterDeviceDriver true] := by
  obtain ⟨cfg, bytes, port, htr⟩ := doRunTrace_reachesRun call env h
  rw [htr]
  cases hrr : env.runResponse <;> cases call <;>
    simp [initSentTrace, bootTrace, wireTrace, settleEvents, isRegister,
      modeOf, programOf, runReqOf]

/-- Witness for C7 at a concrete debug session and a concrete run session. -/
theorem debug_registers_two_drivers_witness :
    ((doRunTrace (LaunchCall.debug "a.py" "u" "t") envOk).filter isRegister
      = if modeOf (LaunchCall.debug "a.py" "u" "t") = Mode.debug
        then [Event.registerCharacterDeviceDriver true,
          Event.registerCharacterDeviceDriver false]
        else [Event.registerCharacterDeviceDriver true])
    ∧ ((doRunTrace (LaunchCall.run "a.py") envOk).filter isRegister
      = if modeOf (LaunchCall.run "a.py") = Mode.debug
        then [Event.registerCharacterDeviceDriver true,
          Event.registerCharacterDeviceDriver false]
        else [Event.registerCharacterDeviceDriver true]) :=
  ⟨debug_registers_two_drivers (LaunchCall.debug "a.py" "u" "t") envOk (by decide),
   debug_registers_two_drivers (LaunchCall.run "a.py") envOk (by decide)⟩

/-- C8: `terminate()` is idempotent with respect to the completion promise
and the channel: a `terminate` invocation never invokes either exit
callback; appending a second `terminate` to any trace that already ends
with one produces no additional channel-close side effect; and once the
session has settled (so the `finally` handler has already invoked
`terminateConnection`), a further `terminate` produces no channel-close
side effect at all — it is a no-op on the channel.  The channel-close
accounting relies on the spec-modelled idempotence of the subclasses'
`terminateConnection` (see `channelCloseCount`). -/
theorem terminate_idempotent (call : LaunchCall) (env : Env) (t : Option Unit)
    (h : 1 ≤ settleCount (doRunTrace call env)) :
    settleCount (terminateEvents t) = 0
    ∧ (∀ tr : List Event,
        channelCloseCount false (tr ++ terminateEvents t ++ terminateEvents t)
          = channelCloseCount false (tr ++ terminateEvents t))
    ∧ channelCloseCount false (doRunTrace call env ++ terminateEvents t)
        = channelCloseCount false (doRunTrace call env) := by
  refine ⟨?_, ?_, ?_⟩
  · cases t <;> simp [terminateEvents, settleCount, isSettle]
  · intro tr
    rw [channelCloseCount_append false (tr ++ terminateEvents t) (terminateEvents t),
      closedAfter_terminateEvents, channelCloseCount_terminateEvents_closed]
    omega
  · rw [channelCloseCount_append false (doRunTrace call env) (terminateEvents t),
      settle_implies_closed call env h, channelCloseCount_terminateEvents_closed]
    omega

/-- Witness for C8 at a concrete successful run session. -/
theorem terminate_idempotent_witness :
    settleCount (terminateEvents none) = 0
    ∧ (∀ tr : List Event,
        channelCloseCount false (tr ++ terminateEvents none ++ terminateEvents none)
          = channelCloseCount false (tr ++ terminateEvents none))
    ∧ channelCloseCount false
        (doRunTrace (LaunchCall.run "app.py") envOk ++ terminateEvents none)
        = channelCloseCount false (doRunTrace (LaunchCall.run "app.py") envOk) :=
  terminate_idempotent (LaunchCall.run "app.py") envOk none (by decide)

/-- C9: for every outcome of the environment preload, `preloadPython`'s
promise resolves — the whole body is guarded by `try`/`catch` — and any
error the body raises (extension activation failure or a
`loadWorkspaceContents` failure) is logged via `console.log` instead of
being surfaced; hence code awaiting the preload promise (command
handlers, debug-configuration resolution, descriptor creation) can never
observe a preload failure. -/
theorem preload_never_rejects (env : ExtensionEnv) :
    (preloadPython env).1 = Except.ok ()
    ∧ (∀ e, (preloadBody env).1 = Except.error e →
        PEvent.consoleLog e ∈ (preloadPython env).2) := by
  constructor
  · unfold preloadPython
    rcases hb : preloadBody env with ⟨r, evs⟩
    cases r <;> simp
  · intro e he
    unfold preloadPython
    rcases hb : preloadBody env with ⟨r, evs⟩
    rw [hb] at he
    simp at he
    rw [he]
    simp

/-- Witness for C9 at a concrete failing-activation environment. -/
theorem preload_never_rejects_witness :
    (preloadPython envPreloadFail).1 = Except.ok ()
    ∧ PEvent.consoleLog "activation failed" ∈ (preloadPython envPreloadFail).2 :=
  ⟨(preload_never_rejects envPreloadFail).1,
   (preload_never_rejects envPreloadFail).2 "activation failed" rfl⟩

/-- C10: the private `terminal` field of `BaseLauncher` is never assigned
by any operation — it is `undefined` in every reachable field state — so
`terminate()` never writes the 'Execution terminated' interrupt notice to
a terminal and its only effect is the invocation of
`terminateConnection`. -/
theorem terminal_never_assigned (f : Fields) (h : ReachableFields f) :
    f.terminal = none
    ∧ terminateEvents f.terminal = [Event.terminateConnCall] := by
  induction h with
  | constructed => exact ⟨rfl, rfl⟩
  | afterDoRun f call _ ih => exact ⟨ih.1, ih.2⟩
  | afterTerminate f _ ih => exact ih

/-- Witness for C10 at the freshly constructed field state. -/
theorem terminal_never_assigned_witness :
    initialFields.terminal = none
    ∧ terminateEvents initialFields.terminal = [Event.terminateConnCall] :=
  terminal_never_assigned initialFields ReachableFields.constructed

end PyWasm
